import Mathlib

/-!
Shallow embedding of the `code-atlas` note-taking application
(`src/notes/models.py`, `src/notes/views.py`).

Modelling conventions:
* a database of notes is a `List Note`; a stored row has `id = some n`;
* the random source of `random.choice(string.digits)` is an explicit
  stream `Nat → Nat` of candidate values, each the numeric value of an
  eight-character digit string (hence below `10 ^ 8`);
* the unbounded `while True` retry loop is run on explicit fuel and
  returns `none` when the fuel is exhausted, so nontermination of the
  loop is visible as `none` for every fuel.
-/

namespace CodeAtlas

/-- A row of the `Note` model (`src/notes/models.py`).  `id` is the
integer primary key (`none` while unassigned), `user` the id of the
owning `User`, and `document_vector` the indexed search field. -/
structure Note where
  id : Option Nat
  user : Nat
  title : String
  content : String
  is_public : Bool
  document_vector : Option String
  tags : List String
  clone_count : Nat
  last_edited : Nat
  deriving Repr, DecidableEq

/-- A row of the `Reference` model (`src/notes/models.py`): a URL with
a description, attached to a `Note`; `note` is the id of the owning
Note (`ForeignKey` with `on_delete=models.CASCADE`). -/
structure Reference where
  note : Nat
  reference_url : String
  reference_desc : String
  deriving Repr, DecidableEq

/-- The full-text vector of a note, per the `Note` model docstring:
`document_vector` holds the value of the concatenation of `title` and
`content`. -/
def searchVector (title content : String) : String :=
  title ++ content

/-- `Note.objects.filter(id=id).exists()`: whether some stored note
already carries the id `n`. -/
def idExists (stored : List Note) (n : Nat) : Bool :=
  stored.any (fun note => note.id == some n)

/-- Python truthiness of `self.id` in the guard `if not self.id:` of
`Note.save`: an id is truthy exactly when it is set and nonzero
(`None` and `0` are both falsy in Python). -/
def idTruthy : Option Nat → Bool
  | none => false
  | some 0 => false
  | some (_ + 1) => true

/-- The id-generation retry loop of `Note.save`:

```
while True:
    id = join of eight random digit characters
    if not Note.objects.filter(id=id).exists():
        break
```

`stream k` is the candidate produced by the `k`-th iteration; the loop
stops at the first candidate no stored note carries.  `fuel` bounds the
number of iterations inspected; `none` means the loop had not stopped
within `fuel` iterations. -/
def genId (stored : List Note) (stream : Nat → Nat) : Nat → Option Nat
  | 0 => none
  | fuel + 1 =>
    if idExists stored (stream 0) then
      genId stored (fun k => stream (k + 1)) fuel
    else
      some (stream 0)

/-- Modelled from the spec: the search-vector maintenance re-triggered
on save ("a maintained full-text search vector kept in sync with note
content"; the `Note` docstring states the field is updated whenever the
save method is called, and the code doing the update is not among the
sources). -/
def setVector (note : Note) : Note :=
  { note with document_vector := some (searchVector note.title note.content) }

/-- `Note.save` (`src/notes/models.py`): when the id is falsy, run the
retry loop against the stored notes and assign the resulting fresh id;
then perform the save, which maintains `document_vector`.  The result is
`none` exactly when the retry loop did not stop within `fuel`
iterations. -/
def Note.save (note : Note) (stored : List Note) (stream : Nat → Nat)
    (fuel : Nat) : Option Note :=
  if idTruthy note.id then
    some (setVector note)
  else
    match genId stored stream fuel with
    | none => none
    | some i => some (setVector { note with id := some i })

/-! ### Views (`src/notes/views.py`) -/

/-- Modelled from the spec: `NoteCreatorOrPublicMixin`
(`src/notes/mixins.py` is not among the sources).  Per the spec,
ownership/visibility access control is layered onto the generic views:
if the note is not public, only the owner can view it. -/
def canAccessNote (requester : Nat) (note : Note) : Bool :=
  note.is_public || note.user == requester

/-- The outcome of `ViewNoteView`: either a rendered page carrying the
note content (owner template or public template), or a redirect issued
by the access-control mixin. -/
inductive ViewOutcome where
  | page (ownerTemplate : Bool) (content : String)
  | redirected
  deriving Repr, DecidableEq

/-- `ViewNoteView` (`src/notes/views.py`): render the note for the
requester, choosing `view_note.html` for the owner and
`view_note_public.html` otherwise; non-allowed requests are redirected
by the mixin and see no content. -/
def viewNote (requester : Nat) (note : Note) : ViewOutcome :=
  if canAccessNote requester note then
    ViewOutcome.page (note.user == requester) note.content
  else
    ViewOutcome.redirected

/-- Modelled from the spec: `Note.increment_clone_count` (the method is
not among the sources; the spec states cloning increments clone_count
by 1).  Applied to the whole table: the row carrying `noteId` gets its
counter raised by one, every other row is untouched. -/
def incrementCloneCount (stored : List Note) (noteId : Option Nat) : List Note :=
  stored.map (fun n => if n.id = noteId then { n with clone_count := n.clone_count + 1 } else n)

/-- Modelled from the spec: `Note.tags_to_string` (the method is not
among the sources); renders the tags of a note as a single string for
the form initial data. -/
def tagsToString (tags : List String) : String :=
  String.intercalate " " tags

/-- The initial data `CloneNoteView.get_initial` puts into the form:
the keys `title`, `content` and `tags`. -/
structure FormInitial where
  title : Option String
  content : Option String
  tags : Option String
  deriving Repr, DecidableEq

/-- `CloneNoteView.get_initial` (`src/notes/views.py`): pre-populate
the form with the title, the content and the rendered tags of the
cloned note. -/
def getInitial (note : Note) : FormInitial :=
  { title := some note.title
    content := some note.content
    tags := some (tagsToString note.tags) }

/-- The outcome of `CloneNoteView`: either the redirect to the notes
list issued by `dispatch`, or a successful clone; each carries the
resulting table of stored notes. -/
inductive CloneOutcome where
  | redirect (stored : List Note)
  | success (stored : List Note) (created : Note)
  deriving Repr, DecidableEq

/-- Whether a clone outcome is a successful clone. -/
def CloneOutcome.isSuccess : CloneOutcome → Bool
  | CloneOutcome.redirect _ => false
  | CloneOutcome.success _ _ => true

/-- The stored notes after a clone outcome. -/
def CloneOutcome.stored : CloneOutcome → List Note
  | CloneOutcome.redirect s => s
  | CloneOutcome.success s _ => s

/-- `CloneNoteView` (`src/notes/views.py`): `dispatch` redirects to the
notes list when the cloned note is neither public nor owned by the
requester, leaving the table untouched; otherwise the form flow runs,
`form_valid` increments the clone counter of the cloned note and the
new note (built from the submitted form) is created. -/
def cloneNote (requester : Nat) (srcNote : Note) (stored : List Note)
    (created : Note) : CloneOutcome :=
  if !srcNote.is_public && !(srcNote.user == requester) then
    CloneOutcome.redirect stored
  else
    CloneOutcome.success (created :: incrementCloneCount stored srcNote.id) created

/-- The database state the `Reference` cascade acts on: the stored
notes and the stored references. -/
structure DB where
  notes : List Note
  refs : List Reference
  deriving Repr, DecidableEq

/-- Deleting a Note (`DeleteNoteView` together with
`on_delete=models.CASCADE` on `Reference.note`): the note row with id
`i` is removed, and every reference row pointing at it is removed with
it. -/
def deleteNote (db : DB) (i : Nat) : DB :=
  { notes := db.notes.filter (fun n => !(n.id == some i))
    refs := db.refs.filter (fun r => !(r.note == i)) }

/-- Referential integrity of the stored references: every stored
reference points at an existing stored note. -/
def refsValid (db : DB) : Prop :=
  ∀ r ∈ db.refs, ∃ n ∈ db.notes, n.id = some r.note

instance : DecidablePred refsValid := fun db =>
  inferInstanceAs (Decidable (∀ r ∈ db.refs, ∃ n ∈ db.notes, n.id = some r.note))

/-- The `order_by` call on `-last_edited` in `NotesView.get_queryset`:
the notes sorted by last-edited time, most recent first. -/
def orderByLastEditedDesc (xs : List Note) : List Note :=
  xs.insertionSort (fun a b => b.last_edited ≤ a.last_edited)

/-- `paginate_by = 24` splitting of a result list into pages of at most
`k` objects (`k = 0` yields no pages). -/
def paginate (k : Nat) (xs : List Note) : List (List Note) :=
  if h : xs = [] ∨ k = 0 then [] else xs.take k :: paginate k (xs.drop k)
termination_by xs.length
decreasing_by
  simp only [not_or] at h
  have hx : 0 < xs.length := List.length_pos.mpr h.1
  have hk : 0 < k := Nat.pos_of_ne_zero h.2
  simpa using Nat.sub_lt hx hk

/-- `NotesView` (`src/notes/views.py`): the pages shown to `user` are
the stored notes owned by `user`, ordered by most recently edited,
split into pages of 24 objects. -/
def notesView (user : Nat) (stored : List Note) : List (List Note) :=
  paginate 24 (orderByLastEditedDesc (stored.filter (fun n => n.user == user)))

/-! ### Helper lemmas -/

theorem idExists_eq_false {stored : List Note} {n : Nat} :
    idExists stored n = false ↔ ∀ m ∈ stored, m.id ≠ some n := by
  simp [idExists, List.any_eq_false]

theorem genId_eq_some {stored : List Note} {i : Nat} :
    ∀ {stream : Nat → Nat} {fuel : Nat}, genId stored stream fuel = some i →
      idExists stored i = false ∧ ∃ k, stream k = i := by
  intro stream fuel
  induction fuel generalizing stream with
  | zero => intro h; simp [genId] at h
  | succ fuel ih =>
    intro h
    rw [genId] at h
    split at h
    · obtain ⟨h1, k, hk⟩ := ih h
      exact ⟨h1, k + 1, hk⟩
    · next hfree =>
      cases h
      exact ⟨Bool.eq_false_iff.mpr hfree, 0, rfl⟩

theorem genId_isSome {stored : List Note} :
    ∀ {stream : Nat → Nat} {k : Nat}, idExists stored (stream k) = false →
      (genId stored stream (k + 1)).isSome = true := by
  intro stream k
  induction k generalizing stream with
  | zero =>
    intro h
    rw [genId]
    simp [h]
  | succ k ih =>
    intro h
    rw [genId]
    split
    · exact ih h
    · simp

theorem genId_none {stored : List Note} :
    ∀ {stream : Nat → Nat}, (∀ k, idExists stored (stream k) = true) →
      ∀ fuel, genId stored stream fuel = none := by
  intro stream hall fuel
  induction fuel generalizing stream with
  | zero => rfl
  | succ fuel ih =>
    rw [genId]
    simp only [hall 0, if_true]
    exact ih (fun k => hall (k + 1))

/-- A concrete note used to instantiate theorems with hypotheses. -/
def wNote : Note :=
  { id := some 1, user := 0, title := "t", content := "c", is_public := true
    document_vector := none, tags := [], clone_count := 0, last_edited := 0 }

/-- A concrete unsaved note (no id yet). -/
def wFresh : Note :=
  { id := none, user := 0, title := "t", content := "c", is_public := true
    document_vector := none, tags := [], clone_count := 0, last_edited := 0 }

/-- A concrete stored note whose id is the integer 0 (the value of the
digit string 00000000). -/
def zeroNote : Note :=
  { id := some 0, user := 0, title := "t", content := "c", is_public := true
    document_vector := none, tags := [], clone_count := 0, last_edited := 0 }

/-! ### Claims -/

/-- C1: after every call to `save` that returns, the derived field
`document_vector` of the resulting note equals the full-text vector of
the current `title` and `content` of the note (the vector is recomputed
on each save). -/
theorem c1_save_syncs_document_vector (note : Note) (stored : List Note)
    (stream : Nat → Nat) (fuel : Nat) (note2 : Note)
    (hsave : Note.save note stored stream fuel = some note2) :
    note2.document_vector = some (searchVector note2.title note2.content) := by
  unfold Note.save at hsave
  split at hsave
  · cases hsave
    rfl
  · split at hsave
    · cases hsave
    · cases hsave
      rfl

theorem c1_witness :
    (setVector wNote).document_vector =
      some (searchVector (setVector wNote).title (setVector wNote).content) :=
  c1_save_syncs_document_vector wNote [] (fun k => k) 1 (setVector wNote) rfl

/-- C2: when `save` is called on a note whose id is unset and the call
returns, the note is assigned exactly one id, that id is the value of
an eight-character digit string (a natural number below `10 ^ 8`), and
it differs from the id of every note already stored. -/
theorem c2_save_assigns_fresh_eight_digit_id (note : Note) (stored : List Note)
    (stream : Nat → Nat) (fuel : Nat) (note2 : Note)
    (hid : note.id = none)
    (hstream : ∀ k, stream k < 10 ^ 8)
    (hsave : Note.save note stored stream fuel = some note2) :
    ∃ i, note2.id = some i ∧ i < 10 ^ 8 ∧ ∀ m ∈ stored, m.id ≠ some i := by
  unfold Note.save at hsave
  rw [hid] at hsave
  simp only [idTruthy, Bool.false_eq_true, if_false] at hsave
  cases hgen : genId stored stream fuel with
  | none =>
    rw [hgen] at hsave
    cases hsave
  | some i =>
    rw [hgen] at hsave
    cases hsave
    obtain ⟨hfree, k, hk⟩ := genId_eq_some hgen
    exact ⟨i, rfl, hk ▸ hstream k, idExists_eq_false.mp hfree⟩

theorem c2_witness :
    ∃ i, (setVector { wFresh with id := some 7 }).id = some i ∧ i < 10 ^ 8 ∧
      ∀ m ∈ ([] : List Note), m.id ≠ some i :=
  c2_save_assigns_fresh_eight_digit_id wFresh [] (fun _ => 7) 1
    (setVector { wFresh with id := some 7 }) rfl
    (fun _ => (by decide : (7 : Nat) < 10 ^ 8)) rfl

/-- C3 counterexample: a stored note whose assigned id is the integer 0
(the value of the digit string 00000000) does not keep its id across
`save`: the guard `if not self.id` treats the Python-falsy id 0 as
unset, so the id is regenerated (here it becomes 7). -/
theorem c3_cex_zero_id_regenerated :
    zeroNote.id = some 0 ∧
    (Note.save zeroNote [zeroNote] (fun _ => 7) 1).map Note.id = some (some 7) ∧
    (some (some 7) : Option (Option Nat)) ≠ some zeroNote.id :=
  ⟨rfl, rfl, by decide⟩

/-- C3 amended: for every note whose assigned id is nonzero, `save`
leaves the id unchanged regardless of what other fields are modified; a
note whose assigned id is 0 is treated as unset by the Python
truthiness guard in `save` and receives a fresh id instead. -/
theorem c3_nonzero_id_immutable (note : Note) (stored : List Note)
    (stream : Nat → Nat) (fuel : Nat) (note2 : Note) (i : Nat)
    (hid : note.id = some i) (hpos : i ≠ 0)
    (hsave : Note.save note stored stream fuel = some note2) :
    note2.id = note.id := by
  unfold Note.save at hsave
  rw [hid] at hsave
  obtain ⟨j, rfl⟩ := Nat.exists_eq_succ_of_ne_zero hpos
  simp only [idTruthy, if_true] at hsave
  cases hsave
  simp [setVector, hid]

theorem c3_witness :
    (setVector wNote).id = wNote.id :=
  c3_nonzero_id_immutable wNote [] (fun k => k) 1 (setVector wNote) 1 rfl
    (by decide) rfl

/-- C4: a private note (is_public false) is never shown to an
authenticated requester other than its owner: the view outcome is the
redirect, which carries no note content. -/
theorem c4_private_note_redirects_non_owner (requester : Nat) (note : Note)
    (hpriv : note.is_public = false) (hown : note.user ≠ requester) :
    viewNote requester note = ViewOutcome.redirected := by
  unfold viewNote canAccessNote
  rw [hpriv]
  simp [hown]

theorem c4_witness :
    viewNote 1 { wNote with is_public := false } = ViewOutcome.redirected :=
  c4_private_note_redirects_non_owner 1 { wNote with is_public := false } rfl
    (by decide)

/-- C5: the clone operation proceeds exactly when the source note is
public or the requesting user is its owner; otherwise `dispatch`
redirects to the notes list and the stored table is returned untouched
(no note is created, no counter changes). -/
theorem c5_clone_dispatch_guard (requester : Nat) (srcNote : Note)
    (stored : List Note) (created : Note) :
    ((cloneNote requester srcNote stored created).isSuccess = true ↔
      (srcNote.is_public = true ∨ srcNote.user = requester)) ∧
    ((cloneNote requester srcNote stored created).isSuccess = false →
      cloneNote requester srcNote stored created = CloneOutcome.redirect stored) := by
  unfold cloneNote
  by_cases hpub : srcNote.is_public = true
  · simp [hpub, CloneOutcome.isSuccess]
  · by_cases hown : srcNote.user = requester
    · simp [hown, CloneOutcome.isSuccess]
    · simp [Bool.not_eq_true _ ▸ hpub, hown, CloneOutcome.isSuccess,
        Bool.eq_false_iff.mpr hpub]

/-- C6: a successful clone prepends the created note to a table in
which the clone counter of every row carrying the id of the source note
is raised by exactly one, and the clone counter of every other row is
unchanged. -/
theorem c6_clone_increments_source_counter (requester : Nat) (srcNote : Note)
    (stored : List Note) (created : Note) (k : Nat)
    (hsucc : (cloneNote requester srcNote stored created).isSuccess = true) :
    (cloneNote requester srcNote stored created).stored =
      created :: incrementCloneCount stored srcNote.id ∧
    ((incrementCloneCount stored srcNote.id)[k]?).map Note.clone_count =
      (stored[k]?).map (fun m =>
        if m.id = srcNote.id then m.clone_count + 1 else m.clone_count) := by
  constructor
  · unfold cloneNote at hsucc ⊢
    by_cases hcond : (!srcNote.is_public && !(srcNote.user == requester)) = true
    · rw [if_pos hcond] at hsucc
      simp [CloneOutcome.isSuccess] at hsucc
    · rw [if_neg hcond]
      rfl
  · unfold incrementCloneCount
    rw [List.getElem?_map]
    cases stored[k]? with
    | none => rfl
    | some m =>
      by_cases hm : m.id = srcNote.id <;> simp [hm]

theorem c6_witness :
    (cloneNote 0 wNote [wNote] wFresh).stored =
      wFresh :: incrementCloneCount [wNote] wNote.id ∧
    ((incrementCloneCount [wNote] wNote.id)[0]?).map Note.clone_count =
      (([wNote] : List Note)[0]?).map (fun m =>
        if m.id = wNote.id then m.clone_count + 1 else m.clone_count) :=
  c6_clone_increments_source_counter 0 wNote [wNote] wFresh 0 rfl

/-- C7: a successful clone pre-populates the form with exactly the
title, the content and the rendered tags of the source note, while the
stored source rows keep their title, content and visibility through the
operation (only the created note is prepended and only clone counters
are touched). -/
theorem c7_clone_initial_and_source_frame (requester : Nat) (srcNote : Note)
    (stored : List Note) (created : Note) (k : Nat)
    (hsucc : (cloneNote requester srcNote stored created).isSuccess = true) :
    getInitial srcNote =
      { title := some srcNote.title, content := some srcNote.content
        tags := some (tagsToString srcNote.tags) } ∧
    (cloneNote requester srcNote stored created).stored.head? = some created ∧
    (((cloneNote requester srcNote stored created).stored.tail)[k]?).map
        (fun m => (m.title, m.content, m.is_public)) =
      (stored[k]?).map (fun m => (m.title, m.content, m.is_public)) := by
  unfold cloneNote at hsucc ⊢
  by_cases hcond : (!srcNote.is_public && !(srcNote.user == requester)) = true
  · rw [if_pos hcond] at hsucc
    simp [CloneOutcome.isSuccess] at hsucc
  · rw [if_neg hcond]
    refine ⟨rfl, rfl, ?_⟩
    unfold incrementCloneCount
    simp only [CloneOutcome.stored, List.tail_cons]
    rw [List.getElem?_map]
    cases stored[k]? with
    | none => rfl
    | some m =>
      by_cases hm : m.id = srcNote.id <;> simp [hm]

theorem c7_witness :
    getInitial wNote =
      { title := some wNote.title, content := some wNote.content
        tags := some (tagsToString wNote.tags) } ∧
    (cloneNote 0 wNote [wNote] wFresh).stored.head? = some wFresh ∧
    (((cloneNote 0 wNote [wNote] wFresh).stored.tail)[0]?).map
        (fun m => (m.title, m.content, m.is_public)) =
      (([wNote] : List Note)[0]?).map (fun m => (m.title, m.content, m.is_public)) :=
  c7_clone_initial_and_source_frame 0 wNote [wNote] wFresh 0 rfl

/-- C8: deleting a note cascades: no reference pointing at the deleted
note survives, the deleted note itself is gone, and referential
integrity is preserved, so every stored reference keeps pointing at an
existing stored note. -/
theorem c8_reference_cascade (db : DB) (i : Nat) (r : Reference) (n : Note)
    (hvalid : refsValid db) :
    (r ∈ (deleteNote db i).refs → r.note ≠ i) ∧
    (n ∈ (deleteNote db i).notes → n.id ≠ some i) ∧
    refsValid (deleteNote db i) := by
  refine ⟨?_, ?_, ?_⟩
  · intro hr
    have := (List.mem_filter.mp hr).2
    simpa using this
  · intro hn
    have := (List.mem_filter.mp hn).2
    simpa using this
  · intro s hs
    obtain ⟨hs1, hs2⟩ := List.mem_filter.mp hs
    have hne : s.note ≠ i := by simpa using hs2
    obtain ⟨m, hm, hmid⟩ := hvalid s hs1
    refine ⟨m, List.mem_filter.mpr ⟨hm, ?_⟩, hmid⟩
    simp [hmid]
    exact fun hcontra => hne hcontra

/-- A concrete database used to instantiate the cascade theorem. -/
def wDB : DB :=
  { notes := [{ wNote with id := some 5 }]
    refs := [{ note := 5, reference_url := "u", reference_desc := "d" }] }

theorem c8_witness :
    (({ note := 5, reference_url := "u", reference_desc := "d" } : Reference) ∈
        (deleteNote wDB 5).refs → (5 : Nat) ≠ 5) ∧
    ({ wNote with id := some 5 } ∈ (deleteNote wDB 5).notes →
      ({ wNote with id := some 5 } : Note).id ≠ some 5) ∧
    refsValid (deleteNote wDB 5) :=
  c8_reference_cascade wDB 5
    { note := 5, reference_url := "u", reference_desc := "d" }
    { wNote with id := some 5 } (by decide)

theorem paginate_flatten (k : Nat) (hk : k ≠ 0) (xs : List Note) :
    (paginate k xs).flatten = xs := by
  by_cases h : xs = [] ∨ k = 0
  · rcases h with h | h
    · rw [paginate]
      simp [h]
    · exact absurd h hk
  · rw [paginate, dif_neg h, List.flatten_cons,
      paginate_flatten k hk (xs.drop k)]
    exact List.take_append_drop k xs
termination_by xs.length
decreasing_by
  simp only [not_or] at h
  have hx : 0 < xs.length := List.length_pos.mpr h.1
  simpa using Nat.sub_lt hx (Nat.pos_of_ne_zero h.2)

theorem paginate_mem_length (k : Nat) (xs : List Note) (p : List Note)
    (hp : p ∈ paginate k xs) : p.length ≤ k := by
  by_cases h : xs = [] ∨ k = 0
  · rw [paginate, dif_pos h] at hp
    simp at hp
  · rw [paginate, dif_neg h] at hp
    rcases List.mem_cons.mp hp with rfl | hp2
    · rw [List.length_take]
      exact min_le_left _ _
    · exact paginate_mem_length k (xs.drop k) p hp2
termination_by xs.length
decreasing_by
  simp only [not_or] at h
  have hx : 0 < xs.length := List.length_pos.mpr h.1
  simpa using Nat.sub_lt hx (Nat.pos_of_ne_zero h.2)

/-- C9: the notes listing shown to a user consists exactly of the
stored notes owned by that user (the concatenation of the pages is a
permutation of them), ordered by last-edited time descending, and every
page holds at most 24 notes. -/
theorem c9_notes_view_pages (user : Nat) (stored : List Note) (k : Nat) :
    ((notesView user stored).flatten).Perm
      (stored.filter (fun n => n.user == user)) ∧
    List.Sorted (fun a b : Note => b.last_edited ≤ a.last_edited)
      ((notesView user stored).flatten) ∧
    (((notesView user stored)[k]?).map List.length).getD 0 ≤ 24 := by
  have hflat : (notesView user stored).flatten =
      orderByLastEditedDesc (stored.filter (fun n => n.user == user)) :=
    paginate_flatten 24 (by decide) _
  refine ⟨?_, ?_, ?_⟩
  · rw [hflat]
    exact List.perm_insertionSort _ _
  · rw [hflat]
    haveI : IsTotal Note (fun a b => b.last_edited ≤ a.last_edited) :=
      ⟨fun a b => Nat.le_total b.last_edited a.last_edited⟩
    haveI : IsTrans Note (fun a b => b.last_edited ≤ a.last_edited) :=
      ⟨fun _ _ _ hab hbc => Nat.le_trans hbc hab⟩
    exact List.sorted_insertionSort _ _
  · cases hk : (notesView user stored)[k]? with
    | none => simp
    | some p =>
      simp only [Option.map_some', Option.getD_some]
      exact paginate_mem_length 24 _ p (List.getElem?_mem hk)

theorem exists_unused_id (stored : List Note) (hlen : stored.length < 10 ^ 8) :
    ∃ n, n < 10 ^ 8 ∧ idExists stored n = false := by
  by_contra hcon
  push_neg at hcon
  have hsub : Finset.range (10 ^ 8) ⊆ (stored.filterMap Note.id).toFinset := by
    intro n hn
    rw [Finset.mem_range] at hn
    have hne := hcon n hn
    have htrue : idExists stored n = true := by
      cases h2 : idExists stored n
      · exact absurd h2 hne
      · rfl
    rw [List.mem_toFinset, List.mem_filterMap]
    unfold idExists at htrue
    rw [List.any_eq_true] at htrue
    obtain ⟨m, hm, hmid⟩ := htrue
    exact ⟨m, hm, by simpa using hmid⟩
  have h1 : (10 : Nat) ^ 8 ≤ (stored.filterMap Note.id).toFinset.card := by
    simpa using Finset.card_le_card hsub
  have h2 := List.toFinset_card_le (stored.filterMap Note.id)
  have h3 := List.length_filterMap_le Note.id stored
  omega

/-- C10: the id-generation retry loop terminates whenever fewer than
`10 ^ 8` notes are stored and the random stream can reach every
eight-digit candidate (some candidate is then still unused, so the loop
stops once the stream hits it); and without that precondition the loop
can run forever: with every eight-digit id already stored, no fuel
makes it stop. -/
theorem c10_id_loop_termination (stored : List Note) (stream : Nat → Nat)
    (hlen : stored.length < 10 ^ 8)
    (hfair : ∀ n, n < 10 ^ 8 → ∃ k, stream k = n) :
    (∃ fuel, (genId stored stream fuel).isSome = true) ∧
    (∃ bad : List Note, ∃ badStream : Nat → Nat,
      ¬ bad.length < 10 ^ 8 ∧ (∀ k, badStream k < 10 ^ 8) ∧
      ∀ fuel, genId bad badStream fuel = none) := by
  constructor
  · obtain ⟨n, hn, hfree⟩ := exists_unused_id stored hlen
    obtain ⟨k, hk⟩ := hfair n hn
    refine ⟨k + 1, genId_isSome ?_⟩
    rw [hk]
    exact hfree
  · refine ⟨(List.range (10 ^ 8)).map (fun n => { wNote with id := some n }),
      fun _ => 0, ?_, fun _ => (by decide : (0 : Nat) < 10 ^ 8), ?_⟩
    · simp
    · intro fuel
      apply genId_none _ fuel
      intro k
      unfold idExists
      rw [List.any_eq_true]
      refine ⟨{ wNote with id := some 0 }, ?_, by simp⟩
      rw [List.mem_map]
      exact ⟨0, List.mem_range.mpr (by decide), rfl⟩

theorem c10_witness :
    (∃ fuel, (genId [] (fun k => k) fuel).isSome = true) ∧
    (∃ bad : List Note, ∃ badStream : Nat → Nat,
      ¬ bad.length < 10 ^ 8 ∧ (∀ k, badStream k < 10 ^ 8) ∧
      ∀ fuel, genId bad badStream fuel = none) :=
  c10_id_loop_termination [] (fun k => k) (by decide) (fun n _ => ⟨n, rfl⟩)

end CodeAtlas
